import Mathlib

/-!
# Verification of the ping-pong ECS core

Shallow embedding of the core of the `ping-pong` repository
(`src/ping_pong`): the ECS entity manager, the score component and
score system, the velocity component, and the collision system.
Python floats are modelled as real numbers (positions, velocities,
speeds, times); Python ints as `Int`/`Nat`.  Sets (`set` of entity
ids) are modelled as `Finset ℕ`; Python dicts keyed by component type
become functions out of a closed enumeration of component kinds.
-/

namespace PingPong

/-! ## Component kinds

The repository stores components keyed by their Python class
(`type(component)`).  The closed set of component classes of the
project becomes an enumeration. -/

inductive CompKind where
  | position
  | velocity
  | render
  | collision
  | input
  | score
deriving DecidableEq, Repr

/-! ## components/position.py : PositionComponent -/

structure PositionComponent where
  x : ℝ
  y : ℝ

/-! ## components/velocity.py : VelocityComponent

`dx`, `dy`, `max_speed` are floats; modelled over `ℝ`.  The mutating
methods of the Python class become functions returning the updated
component. -/

structure VelocityComponent where
  dx : ℝ
  dy : ℝ
  max_speed : ℝ

namespace VelocityComponent

/-- `get_speed`: `math.sqrt(dx*dx + dy*dy)`. -/
noncomputable def get_speed (v : VelocityComponent) : ℝ :=
  Real.sqrt (v.dx * v.dx + v.dy * v.dy)

/-- `_clamp_to_max_speed`: if `max_speed > 0` and the current speed
exceeds it, scale both components by `max_speed / current_speed`. -/
noncomputable def clamp_to_max_speed (v : VelocityComponent) : VelocityComponent :=
  if 0 < v.max_speed then
    if v.max_speed < v.get_speed then
      { v with dx := v.dx * (v.max_speed / v.get_speed),
               dy := v.dy * (v.max_speed / v.get_speed) }
    else v
  else v

/-- `set_velocity(dx, dy)`. -/
noncomputable def set_velocity (v : VelocityComponent) (dx dy : ℝ) : VelocityComponent :=
  clamp_to_max_speed { v with dx := dx, dy := dy }

/-- `add_velocity(dx, dy)`. -/
noncomputable def add_velocity (v : VelocityComponent) (dx dy : ℝ) : VelocityComponent :=
  clamp_to_max_speed { v with dx := v.dx + dx, dy := v.dy + dy }

/-- `scale_velocity(factor)`. -/
noncomputable def scale_velocity (v : VelocityComponent) (factor : ℝ) : VelocityComponent :=
  clamp_to_max_speed { v with dx := v.dx * factor, dy := v.dy * factor }

/-- `normalize(target_speed)`: rescale to the target speed; note that
this mutation does NOT call `_clamp_to_max_speed`. -/
noncomputable def normalize (v : VelocityComponent) (target_speed : ℝ) : VelocityComponent :=
  if 0 < v.get_speed then
    { v with dx := v.dx * (target_speed / v.get_speed),
             dy := v.dy * (target_speed / v.get_speed) }
  else v

/-- `reflect_x`. -/
def reflect_x (v : VelocityComponent) : VelocityComponent :=
  { v with dx := -v.dx }

/-- `reflect_y`. -/
def reflect_y (v : VelocityComponent) : VelocityComponent :=
  { v with dy := -v.dy }

end VelocityComponent

/-! ## components/collision.py : CollisionType, CollisionComponent -/

inductive CollisionType where
  | paddle
  | ball
  | wall
  | goal
deriving DecidableEq, Repr

structure CollisionComponent where
  width : ℝ
  height : ℝ
  collision_type : CollisionType
  solid : Bool
  trigger : Bool
  bounce_factor : ℝ
  collision_mask : List CollisionType

namespace CollisionComponent

/-- `can_collide_with(other_type)`: membership in the collision mask. -/
def can_collide_with (c : CollisionComponent) (other : CollisionType) : Prop :=
  other ∈ c.collision_mask

instance (c : CollisionComponent) (other : CollisionType) :
    Decidable (c.can_collide_with other) := by
  unfold can_collide_with; infer_instance

/-- `get_collision_bounds(x, y)` as `(left, top, right, bottom)`. -/
noncomputable def get_collision_bounds (c : CollisionComponent) (x y : ℝ) : ℝ × ℝ × ℝ × ℝ :=
  (x - c.width / 2, y - c.height / 2, x + c.width / 2, y + c.height / 2)

end CollisionComponent

/-! ## components/score.py : ScoreComponent

Scores and points are Python ints (`ℤ`); the event history entries
record player, points, and the score tuple after the event. -/

structure ScoreEvent where
  player : ℤ
  points : ℤ
  scores_after : ℤ × ℤ
deriving DecidableEq, Repr

structure ScoreComponent where
  player1_score : ℤ
  player2_score : ℤ
  winning_score : ℤ
  score_to_win : Bool
  game_over : Bool
  winner : Option ℤ
  last_scorer : Option ℤ
  score_events : List ScoreEvent
  max_events : ℕ
deriving DecidableEq, Repr

namespace ScoreComponent

/-- Constructor defaults of `ScoreComponent.__init__`. -/
def init (player1_score player2_score : ℤ) (winning_score : ℤ) : ScoreComponent :=
  { player1_score := player1_score
    player2_score := player2_score
    winning_score := winning_score
    score_to_win := true
    game_over := false
    winner := none
    last_scorer := none
    score_events := []
    max_events := 10 }

/-- `get_score_tuple()`. -/
def get_score_tuple (s : ScoreComponent) : ℤ × ℤ :=
  (s.player1_score, s.player2_score)

/-- `_add_score_event(player, points)`: append the event, then drop the
oldest if the history exceeds `max_events`. -/
def add_score_event (s : ScoreComponent) (player points : ℤ) : ScoreComponent :=
  let event : ScoreEvent := ⟨player, points, s.get_score_tuple⟩
  let events := s.score_events ++ [event]
  { s with score_events := if s.max_events < events.length then events.tail else events }

/-- The tail of `add_score` after the score field was updated: record
`last_scorer`, append the event, then run the game-over check
(`if self.score_to_win: ...`), player 1 tested first. -/
def add_score_tail (s1 : ScoreComponent) (player points : ℤ) : ScoreComponent × Bool :=
  let s2 := add_score_event { s1 with last_scorer := some player } player points
  if s2.score_to_win then
    if s2.winning_score ≤ s2.player1_score then
      ({ s2 with game_over := true, winner := some 1 }, true)
    else if s2.winning_score ≤ s2.player2_score then
      ({ s2 with game_over := true, winner := some 2 }, true)
    else (s2, false)
  else (s2, false)

/-- `add_score(player, points)`: returns the updated component and
whether this call ended the game. -/
def add_score (s : ScoreComponent) (player : ℤ) (points : ℤ) : ScoreComponent × Bool :=
  if s.game_over then (s, false)
  else if player = 1 then
    add_score_tail { s with player1_score := s.player1_score + points } player points
  else if player = 2 then
    add_score_tail { s with player2_score := s.player2_score + points } player points
  else (s, false)

/-- `reset_scores(reset_game_state)`. -/
def reset_scores (s : ScoreComponent) (reset_game_state : Bool) : ScoreComponent :=
  let s1 := { s with player1_score := 0, player2_score := 0,
                     last_scorer := none, score_events := [] }
  if reset_game_state then { s1 with game_over := false, winner := none } else s1

end ScoreComponent

/-! ## Component values

The entity manager stores component instances keyed by their class.
`render.py` and `input.py` hold rendering metadata / input state that
no claim mentions; their payloads are left abstract. -/

inductive Component where
  | position (p : PositionComponent)
  | velocity (v : VelocityComponent)
  | render
  | collision (c : CollisionComponent)
  | input
  | score (s : ScoreComponent)

/-- `type(component)` as the component kind. -/
def Component.kind : Component → CompKind
  | .position _ => .position
  | .velocity _ => .velocity
  | .render => .render
  | .collision _ => .collision
  | .input => .input
  | .score _ => .score

/-! ## core/ecs/entity_manager.py : EntityManager

State of an `EntityManager`:
`_next_entity_id`, `_entities`, `_components` (dict of dicts; modelled
as a function to `Option Component`), `_component_to_entities` (the
reverse indices), `_entities_to_destroy`. -/

structure EntityManager where
  nextId : ℕ
  entities : Finset ℕ
  comps : ℕ → CompKind → Option Component
  rev : CompKind → Finset ℕ
  toDestroy : Finset ℕ

namespace EntityManager

/-- `__init__`. -/
def init : EntityManager :=
  { nextId := 1
    entities := ∅
    comps := fun _ _ => none
    rev := fun _ => ∅
    toDestroy := ∅ }

/-- `create_entity()`: returns the fresh id and the updated manager. -/
def create_entity (m : EntityManager) : ℕ × EntityManager :=
  (m.nextId,
   { m with nextId := m.nextId + 1, entities := insert m.nextId m.entities })

/-- `destroy_entity(entity_id)`: mark for deferred destruction
(only if the entity exists). -/
def destroy_entity (m : EntityManager) (e : ℕ) : EntityManager :=
  if e ∈ m.entities then { m with toDestroy := insert e m.toDestroy } else m

/-- `add_component(entity_id, component)`: `none` models the
`ValueError` raised when the entity does not exist. -/
def add_component (m : EntityManager) (e : ℕ) (c : Component) : Option EntityManager :=
  if e ∈ m.entities then
    some { m with
            comps := fun e2 k => if e2 = e ∧ k = c.kind then some c else m.comps e2 k,
            rev := fun k => if k = c.kind then insert e (m.rev k) else m.rev k }
  else none

/-- `remove_component(entity_id, component_type)`: no-op when the
entity is inactive or the component absent. -/
def remove_component (m : EntityManager) (e : ℕ) (k : CompKind) : EntityManager :=
  if e ∈ m.entities then
    if (m.comps e k).isSome then
      { m with
          comps := fun e2 k2 => if e2 = e ∧ k2 = k then none else m.comps e2 k2,
          rev := fun k2 => if k2 = k then (m.rev k2).erase e else m.rev k2 }
    else m
  else m

/-- `get_component(entity_id, component_type)`. -/
def get_component (m : EntityManager) (e : ℕ) (k : CompKind) : Option Component :=
  if e ∈ m.entities then m.comps e k else none

/-- `get_entities_with_components(component_types)` (`query` of the
spec): the first listed kind seeds the reverse-index intersection; the
pending-destruction filter is applied only on that branch, while the
empty-list branch returns `_entities` directly.  The Python function
returns a list whose order is the set iteration order; it is modelled
as the underlying `Finset`. -/
def get_entities_with_components (m : EntityManager) (kinds : List CompKind) : Finset ℕ :=
  match kinds with
  | [] => m.entities
  | k :: rest =>
    (rest.foldl (fun acc k2 => acc ∩ m.rev k2) (m.rev k)).filter
      (fun e => e ∉ m.toDestroy)

/-- `get_all_entities()`. -/
def get_all_entities (m : EntityManager) : Finset ℕ :=
  m.entities.filter (fun e => e ∉ m.toDestroy)

/-- `cleanup_destroyed_entities()`: for every pending entity, the
component dict is deleted; `remove_component` (called per held kind)
discards from the reverse index only when the entity is still active;
finally the entity is discarded and the pending set cleared. -/
def cleanup_destroyed_entities (m : EntityManager) : EntityManager :=
  { m with
      entities := m.entities \ m.toDestroy,
      comps := fun e k => if e ∈ m.toDestroy then none else m.comps e k,
      rev := fun k =>
        (m.rev k).filter
          (fun e => ¬(e ∈ m.toDestroy ∧ e ∈ m.entities ∧ (m.comps e k).isSome)),
      toDestroy := ∅ }

/-- `clear_all()`: also resets `_next_entity_id` to 1. -/
def clear_all (_m : EntityManager) : EntityManager := init

end EntityManager

/-! ### Reachable manager states

The public operations of the entity manager as an operation language;
an operation whose Python original raises (`add_component` on an
unknown entity) leaves the state unchanged, since the exception is
raised before any mutation. -/

inductive Op where
  | create
  | destroy (e : ℕ)
  | addComp (e : ℕ) (c : Component)
  | removeComp (e : ℕ) (k : CompKind)
  | cleanup
  | clearAll

def applyOp (m : EntityManager) : Op → EntityManager
  | .create => (m.create_entity).2
  | .destroy e => m.destroy_entity e
  | .addComp e c => (m.add_component e c).getD m
  | .removeComp e k => m.remove_component e k
  | .cleanup => m.cleanup_destroyed_entities
  | .clearAll => m.clear_all

def runOps (ops : List Op) : EntityManager :=
  ops.foldl applyOp EntityManager.init

/-- A manager state is reachable when some sequence of public
operations produces it from the initial state. -/
def Reachable (m : EntityManager) : Prop :=
  ∃ ops : List Op, m = runOps ops

/-- The internal consistency invariant of reachable manager states:
the reverse indices list exactly the active entities holding the kind,
components only attach to active entities, every active or pending id
is below the counter, and pending ids are active. -/
def Inv (m : EntityManager) : Prop :=
  (∀ k e, e ∈ m.rev k ↔ e ∈ m.entities ∧ (m.comps e k).isSome) ∧
  (∀ e k, (m.comps e k).isSome → e ∈ m.entities) ∧
  (∀ e ∈ m.entities, e < m.nextId) ∧
  m.toDestroy ⊆ m.entities

/-! ## core/config.py : GameConfig

Only the fields the modelled systems read.  The integer-valued screen
dimensions participate in float arithmetic, so they are carried as
reals; `WINNING_SCORE` only ever meets Python ints. -/

structure GameConfig where
  SCREEN_WIDTH : ℝ
  SCREEN_HEIGHT : ℝ
  BALL_SPEED_INCREASE : ℝ
  MAX_BALL_SPEED : ℝ
  WINNING_SCORE : ℤ

/-- The dataclass defaults of `GameConfig`. -/
noncomputable def GameConfig.default : GameConfig :=
  { SCREEN_WIDTH := 800
    SCREEN_HEIGHT := 600
    BALL_SPEED_INCREASE := 1.05
    MAX_BALL_SPEED := 600
    WINNING_SCORE := 10 }

/-! ## pygame rectangles

`CollisionComponent.get_collision_rect` builds a `pygame.Rect` with
`int(...)` of each float, and `_check_collision_pair` tests
`colliderect`.  Python `int()` truncates toward zero.  `colliderect`
reports strict overlap of the integer rectangles. -/

/-- Python `int(x)`: truncation toward zero. -/
noncomputable def pyInt (x : ℝ) : ℤ :=
  if 0 ≤ x then ⌊x⌋ else ⌈x⌉

structure PyRect where
  x : ℤ
  y : ℤ
  w : ℤ
  h : ℤ

/-- `pygame.Rect.colliderect`: the rectangles overlap in both axes
(edge-to-edge contact does not count). -/
def PyRect.colliderect (a b : PyRect) : Prop :=
  a.x < b.x + b.w ∧ b.x < a.x + a.w ∧ a.y < b.y + b.h ∧ b.y < a.y + a.h

instance (a b : PyRect) : Decidable (a.colliderect b) := by
  unfold PyRect.colliderect; infer_instance

/-- `CollisionComponent.get_collision_rect(x, y)`. -/
noncomputable def CollisionComponent.get_collision_rect
    (c : CollisionComponent) (x y : ℝ) : PyRect :=
  { x := pyInt (x - c.width / 2)
    y := pyInt (y - c.height / 2)
    w := pyInt c.width
    h := pyInt c.height }

/-! ## systems/collision.py : CollisionSystem

The per-entity body of `_handle_boundary_collisions` and the pair
handling of `_check_collision_pair` / `_resolve_collision`, as pure
functions from the components they read to the components they write.
-/

open VelocityComponent in
/-- The loop body of `_handle_boundary_collisions` for one entity:
bounds are computed once from the incoming position; Ball entities
only bounce on top/bottom, all other kinds on all four edges; Paddle
entities get a final hard vertical clamp (tested against the original
bounds). -/
noncomputable def handle_boundary_entity (cfg : GameConfig)
    (pos : PositionComponent) (col : CollisionComponent)
    (vel : Option VelocityComponent) :
    PositionComponent × Option VelocityComponent :=
  let left := pos.x - col.width / 2
  let top := pos.y - col.height / 2
  let right := pos.x + col.width / 2
  let bottom := pos.y + col.height / 2
  let bounceY := fun (v : VelocityComponent) =>
    (v.reflect_y).scale_velocity col.bounce_factor
  let bounceX := fun (v : VelocityComponent) =>
    (v.reflect_x).scale_velocity col.bounce_factor
  let step1 :=
    if col.collision_type = CollisionType.ball then
      if top ≤ 0 then
        ({ pos with y := col.height / 2 }, vel.map bounceY)
      else if cfg.SCREEN_HEIGHT ≤ bottom then
        ({ pos with y := cfg.SCREEN_HEIGHT - col.height / 2 }, vel.map bounceY)
      else (pos, vel)
    else
      let stepX :=
        if left ≤ 0 then
          ({ pos with x := col.width / 2 }, vel.map bounceX)
        else if cfg.SCREEN_WIDTH ≤ right then
          ({ pos with x := cfg.SCREEN_WIDTH - col.width / 2 }, vel.map bounceX)
        else (pos, vel)
      if top ≤ 0 then
        ({ stepX.1 with y := col.height / 2 }, stepX.2.map bounceY)
      else if cfg.SCREEN_HEIGHT ≤ bottom then
        ({ stepX.1 with y := cfg.SCREEN_HEIGHT - col.height / 2 }, stepX.2.map bounceY)
      else stepX
  if col.collision_type = CollisionType.paddle then
    if top < 0 then
      ({ step1.1 with y := col.height / 2 }, step1.2)
    else if cfg.SCREEN_HEIGHT < bottom then
      ({ step1.1 with y := cfg.SCREEN_HEIGHT - col.height / 2 }, step1.2)
    else step1
  else step1

/-- The velocity update of the Ball×Paddle branch of
`_resolve_collision`: reflect horizontally, angle by the hit offset,
scale by `bounce_factor * BALL_SPEED_INCREASE`, then rescale to
`MAX_BALL_SPEED` when the speed exceeds it. -/
noncomputable def ball_paddle_vel (cfg : GameConfig) (ball_col : CollisionComponent)
    (hit_offset : ℝ) (bv : VelocityComponent) : VelocityComponent :=
  let v1 := bv.reflect_x
  let v2 := { v1 with dy := v1.dy + hit_offset * 100 }
  let v3 := v2.scale_velocity (ball_col.bounce_factor * cfg.BALL_SPEED_INCREASE)
  if cfg.MAX_BALL_SPEED < v3.get_speed then v3.normalize cfg.MAX_BALL_SPEED else v3

/-- `_resolve_collision`: the Ball×Paddle special case, then the
Solid×Solid separation fallback (which moves only the first entity).
Result: the updated `(position, velocity)` of entity `a` and of
entity `b`. -/
noncomputable def resolve_collision (cfg : GameConfig)
    (pos_a : PositionComponent) (col_a : CollisionComponent) (vel_a : Option VelocityComponent)
    (pos_b : PositionComponent) (col_b : CollisionComponent) (vel_b : Option VelocityComponent) :
    (PositionComponent × Option VelocityComponent) ×
      (PositionComponent × Option VelocityComponent) :=
  if (col_a.collision_type = CollisionType.ball ∧
        col_b.collision_type = CollisionType.paddle) ∨
     (col_a.collision_type = CollisionType.paddle ∧
        col_b.collision_type = CollisionType.ball) then
    let ball_pos := if col_a.collision_type = CollisionType.ball then pos_a else pos_b
    let ball_col := if col_a.collision_type = CollisionType.ball then col_a else col_b
    let ball_vel := if col_a.collision_type = CollisionType.ball then vel_a else vel_b
    let paddle_pos := if col_a.collision_type = CollisionType.ball then pos_b else pos_a
    let paddle_col := if col_a.collision_type = CollisionType.ball then col_b else col_a
    match ball_vel with
    | some bv =>
      let hit_offset := (ball_pos.y - paddle_pos.y) / (paddle_col.height / 2)
      let hit_offset := max (-1 : ℝ) (min 1 hit_offset)
      let v := ball_paddle_vel cfg ball_col hit_offset bv
      let new_ball_pos : PositionComponent :=
        if ball_pos.x < paddle_pos.x then
          { ball_pos with
              x := paddle_pos.x - (paddle_col.width + ball_col.width) / 2 - 1 }
        else
          { ball_pos with
              x := paddle_pos.x + (paddle_col.width + ball_col.width) / 2 + 1 }
      if col_a.collision_type = CollisionType.ball then
        ((new_ball_pos, some v), (pos_b, vel_b))
      else
        ((pos_a, vel_a), (new_ball_pos, some v))
    | none => ((pos_a, vel_a), (pos_b, vel_b))
  else if col_a.solid ∧ col_b.solid then
    let dx := pos_a.x - pos_b.x
    let dy := pos_a.y - pos_b.y
    let distance := Real.sqrt (dx * dx + dy * dy)
    if 0 < distance then
      let dxn := dx / distance
      let dyn := dy / distance
      let sep_distance := (col_a.width + col_b.width) / 2 + 1
      ((⟨pos_b.x + dxn * sep_distance, pos_b.y + dyn * sep_distance⟩, vel_a),
       (pos_b, vel_b))
    else ((pos_a, vel_a), (pos_b, vel_b))
  else ((pos_a, vel_a), (pos_b, vel_b))

/-- `_check_collision_pair` after both entities' components were
fetched: gate on the mutual collision masks and on the integer
rectangle overlap, then resolve. -/
noncomputable def check_collision_pair (cfg : GameConfig)
    (pos_a : PositionComponent) (col_a : CollisionComponent) (vel_a : Option VelocityComponent)
    (pos_b : PositionComponent) (col_b : CollisionComponent) (vel_b : Option VelocityComponent) :
    (PositionComponent × Option VelocityComponent) ×
      (PositionComponent × Option VelocityComponent) :=
  if col_a.can_collide_with col_b.collision_type ∧
     col_b.can_collide_with col_a.collision_type then
    if (col_a.get_collision_rect pos_a.x pos_a.y).colliderect
         (col_b.get_collision_rect pos_b.x pos_b.y) then
      resolve_collision cfg pos_a col_a vel_a pos_b col_b vel_b
    else ((pos_a, vel_a), (pos_b, vel_b))
  else ((pos_a, vel_a), (pos_b, vel_b))

/-! ## systems/score.py : ScoreSystem

The scoring-detection state of the system: the thresholds fixed at
construction and the cooldown bookkeeping.  `time.time()` becomes an
explicit `current_time` argument. -/

structure ScoreSystemState where
  score_boundary_left : ℝ
  score_boundary_right : ℝ
  last_score_time : ℝ
  score_cooldown : ℝ

/-- `ScoreSystem.__init__`. -/
def ScoreSystemState.init (cfg : GameConfig) : ScoreSystemState :=
  { score_boundary_left := -50
    score_boundary_right := cfg.SCREEN_WIDTH + 50
    last_score_time := 0
    score_cooldown := 1 }

/-- `_check_scoring_conditions` (with `_handle_score_event` inlined to
its state effect, `add_score(player, 1)`; callbacks are external
I/O): return early inside the cooldown window, on a missing ball
position, a missing score component, or a finished game; otherwise
score for the side the ball left and stamp `last_score_time`. -/
noncomputable def check_scoring_conditions (sys : ScoreSystemState) (current_time : ℝ)
    (ball_position : Option PositionComponent) (sc : Option ScoreComponent) :
    ScoreSystemState × Option ScoreComponent :=
  if current_time - sys.last_score_time < sys.score_cooldown then (sys, sc)
  else
    match ball_position, sc with
    | some bp, some s =>
      if s.game_over then (sys, sc)
      else if bp.x < sys.score_boundary_left then
        ({ sys with last_score_time := current_time }, some (s.add_score 2 1).1)
      else if sys.score_boundary_right < bp.x then
        ({ sys with last_score_time := current_time }, some (s.add_score 1 1).1)
      else (sys, sc)
    | _, _ => (sys, sc)

/-! # Lemmas and claim theorems -/

/-! ## Velocity algebra -/

namespace VelocityComponent

theorem sqrt_scale (a b f : ℝ) :
    Real.sqrt ((a * f) * (a * f) + (b * f) * (b * f)) = |f| * Real.sqrt (a * a + b * b) := by
  rw [show (a * f) * (a * f) + (b * f) * (b * f) = (f * f) * (a * a + b * b) by ring,
      Real.sqrt_mul (mul_self_nonneg f), Real.sqrt_mul_self_eq_abs]

theorem get_speed_record_scale (v : VelocityComponent) (f : ℝ) :
    ({ v with dx := v.dx * f, dy := v.dy * f } : VelocityComponent).get_speed =
      |f| * v.get_speed := by
  unfold get_speed
  exact sqrt_scale v.dx v.dy f

theorem get_speed_nonneg (v : VelocityComponent) : 0 ≤ v.get_speed :=
  Real.sqrt_nonneg _

/-- `_clamp_to_max_speed` multiplies both components by one common
factor in `(0, 1]` (the factor is 1 when no clamping happens). -/
theorem clamp_factor (v : VelocityComponent) :
    ∃ c : ℝ, 0 < c ∧ c ≤ 1 ∧
      v.clamp_to_max_speed = { v with dx := v.dx * c, dy := v.dy * c } := by
  unfold clamp_to_max_speed
  by_cases h1 : 0 < v.max_speed
  · by_cases h2 : v.max_speed < v.get_speed
    · have hsp : 0 < v.get_speed := lt_trans h1 h2
      exact ⟨v.max_speed / v.get_speed, div_pos h1 hsp,
        (div_le_one hsp).mpr (le_of_lt h2), by rw [if_pos h1, if_pos h2]⟩
    · refine ⟨1, one_pos, le_refl 1, ?_⟩
      rw [if_pos h1, if_neg h2]
      cases v; simp
  · refine ⟨1, one_pos, le_refl 1, ?_⟩
    rw [if_neg h1]
    cases v; simp

/-- After `_clamp_to_max_speed`, a positive `max_speed` bounds the speed. -/
theorem clamp_speed_le (v : VelocityComponent) (h : 0 < v.max_speed) :
    v.clamp_to_max_speed.get_speed ≤ v.max_speed := by
  unfold clamp_to_max_speed
  rw [if_pos h]
  by_cases h2 : v.max_speed < v.get_speed
  · rw [if_pos h2]
    have hsp : 0 < v.get_speed := lt_trans h h2
    rw [get_speed_record_scale, abs_of_pos (div_pos h hsp),
        div_mul_cancel₀ _ (ne_of_gt hsp)]
  · rw [if_neg h2]
    exact not_lt.mp h2

/-- `normalize` rescales the speed to exactly the target. -/
theorem normalize_get_speed (v : VelocityComponent) (t : ℝ) (ht : 0 ≤ t)
    (h : 0 < v.get_speed) : (v.normalize t).get_speed = t := by
  unfold normalize
  rw [if_pos h, get_speed_record_scale,
      abs_of_nonneg (div_nonneg ht (le_of_lt h)), div_mul_cancel₀ _ (ne_of_gt h)]

end VelocityComponent

/-- Claim C4 (amended): after `set_velocity`, `add_velocity` or
`scale_velocity` with any arguments, a component whose `max_speed` is
positive has speed at most `max_speed` (the final
`_clamp_to_max_speed` enforces it); the clamp does NOT hold after
arbitrary mutations, see the counterexample. -/
theorem velocity_clamped_after_named_mutators (v : VelocityComponent) (dx dy f : ℝ)
    (h : 0 < v.max_speed) :
    (v.set_velocity dx dy).get_speed ≤ v.max_speed ∧
    (v.add_velocity dx dy).get_speed ≤ v.max_speed ∧
    (v.scale_velocity f).get_speed ≤ v.max_speed :=
  ⟨VelocityComponent.clamp_speed_le { v with dx := dx, dy := dy } h,
   VelocityComponent.clamp_speed_le { v with dx := v.dx + dx, dy := v.dy + dy } h,
   VelocityComponent.clamp_speed_le { v with dx := v.dx * f, dy := v.dy * f } h⟩

/-- Claim C4, witness: the amended theorem applied to the component
`(3, 4, max_speed 5)`. -/
theorem velocity_clamped_after_named_mutators_witness :
    ((⟨3, 4, 5⟩ : VelocityComponent).set_velocity 30 40).get_speed ≤ 5 ∧
    ((⟨3, 4, 5⟩ : VelocityComponent).add_velocity 30 40).get_speed ≤ 5 ∧
    ((⟨3, 4, 5⟩ : VelocityComponent).scale_velocity 2).get_speed ≤ 5 :=
  velocity_clamped_after_named_mutators ⟨3, 4, 5⟩ 30 40 2 (by norm_num)

/-- Claim C4, counterexample: `normalize` is a mutation of the
component after which the speed exceeds a positive `max_speed`: the
component `(3, 4, max_speed 5)` normalized to speed 50 has speed 50. -/
theorem velocity_clamp_fails_after_normalize :
    0 < (⟨3, 4, 5⟩ : VelocityComponent).max_speed ∧
    (⟨3, 4, 5⟩ : VelocityComponent).max_speed <
      ((⟨3, 4, 5⟩ : VelocityComponent).normalize 50).get_speed := by
  have h5 : (⟨3, 4, 5⟩ : VelocityComponent).get_speed = 5 := by
    show Real.sqrt ((3 : ℝ) * 3 + 4 * 4) = 5
    rw [show ((3 : ℝ) * 3 + 4 * 4) = 5 ^ 2 by norm_num,
        Real.sqrt_sq (by norm_num : (0 : ℝ) ≤ 5)]
  constructor
  · show (0 : ℝ) < 5
    norm_num
  · show (5 : ℝ) < _
    unfold VelocityComponent.normalize
    rw [h5, if_pos (by norm_num : (0 : ℝ) < 5)]
    show (5 : ℝ) < VelocityComponent.get_speed ⟨3 * (50 / 5), 4 * (50 / 5), 5⟩
    rw [show ((3 : ℝ) * (50 / 5)) = 30 by norm_num,
        show ((4 : ℝ) * (50 / 5)) = 40 by norm_num]
    show (5 : ℝ) < Real.sqrt ((30 : ℝ) * 30 + 40 * 40)
    rw [show ((30 : ℝ) * 30 + 40 * 40) = 50 ^ 2 by norm_num,
        Real.sqrt_sq (by norm_num : (0 : ℝ) ≤ 50)]
    norm_num

/-! ## Score component claims -/

/-- Claim C10: `add_score` with a player argument that is neither 1
nor 2 returns false and leaves the component entirely unchanged. -/
theorem add_score_invalid_player (s : ScoreComponent) (player points : ℤ)
    (h1 : player ≠ 1) (h2 : player ≠ 2) :
    s.add_score player points = (s, false) := by
  unfold ScoreComponent.add_score
  by_cases hg : s.game_over <;> simp [hg, h1, h2]

/-- Claim C10, witness: player 3 never scores. -/
theorem add_score_invalid_player_witness :
    (ScoreComponent.init 0 0 10).add_score 3 5 = (ScoreComponent.init 0 0 10, false) :=
  add_score_invalid_player (ScoreComponent.init 0 0 10) 3 5 (by decide) (by decide)

/-- Claim C8: from scores (0,0) with winning score 3, three calls of
`add_score(1, 1)` end the game with winner 1 and scores (3,0); a
subsequent `reset_scores()` restores scores (0,0), `game_over` false
and no winner. -/
theorem score_round_trip :
    (((((ScoreComponent.init 0 0 3).add_score 1 1).1.add_score 1 1).1.add_score 1 1).1.game_over
        = true) ∧
    ((((ScoreComponent.init 0 0 3).add_score 1 1).1.add_score 1 1).1.add_score 1 1).1.winner
        = some 1 ∧
    ((((ScoreComponent.init 0 0 3).add_score 1 1).1.add_score 1 1).1.add_score 1 1).1.get_score_tuple
        = (3, 0) ∧
    ((((ScoreComponent.init 0 0 3).add_score 1 1).1.add_score 1 1).1.add_score 1 1).2 = true ∧
    (((((ScoreComponent.init 0 0 3).add_score 1 1).1.add_score 1 1).1.add_score 1 1).1.reset_scores
        true).get_score_tuple = (0, 0) ∧
    (((((ScoreComponent.init 0 0 3).add_score 1 1).1.add_score 1 1).1.add_score 1 1).1.reset_scores
        true).game_over = false ∧
    (((((ScoreComponent.init 0 0 3).add_score 1 1).1.add_score 1 1).1.add_score 1 1).1.reset_scores
        true).winner = none := by
  decide

/-- Claim C3 (amended): in a genuine Playing state — `game_over`
false, `score_to_win` enabled, and BOTH scores still below
`winning_score` — an `add_score(p, n)` with p ∈ {1,2} that brings p's
score to at least `winning_score` sets `game_over`, sets `winner := p`
and returns true; a call leaving the score below the threshold leaves
`game_over` false and returns false; and once `game_over` holds,
`add_score` mutates nothing and returns false until a reset. -/
theorem add_score_game_over_transition (s : ScoreComponent) (p n : ℤ)
    (hgo : s.game_over = false) (hstw : s.score_to_win = true)
    (h1 : s.player1_score < s.winning_score) (h2 : s.player2_score < s.winning_score)
    (hp : p = 1 ∨ p = 2) :
    (s.winning_score ≤ (if p = 1 then s.player1_score else s.player2_score) + n →
      (s.add_score p n).1.game_over = true ∧ (s.add_score p n).1.winner = some p ∧
      (s.add_score p n).2 = true) ∧
    ((if p = 1 then s.player1_score else s.player2_score) + n < s.winning_score →
      (s.add_score p n).1.game_over = false ∧ (s.add_score p n).2 = false) ∧
    (∀ s2 : ScoreComponent, s2.game_over = true → ∀ q m, s2.add_score q m = (s2, false)) := by
  refine ⟨?_, ?_, ?_⟩
  · intro hge
    rcases hp with rfl | rfl
    · rw [if_pos rfl] at hge
      simp [ScoreComponent.add_score, ScoreComponent.add_score_tail,
        ScoreComponent.add_score_event, hgo, hstw, hge]
    · rw [if_neg (by decide : ¬(2 : ℤ) = 1)] at hge
      simp [ScoreComponent.add_score, ScoreComponent.add_score_tail,
        ScoreComponent.add_score_event, hgo, hstw, hge, not_le.mpr h1]
  · intro hlt
    rcases hp with rfl | rfl
    · rw [if_pos rfl] at hlt
      simp [ScoreComponent.add_score, ScoreComponent.add_score_tail,
        ScoreComponent.add_score_event, hgo, hstw, not_le.mpr hlt, not_le.mpr h2]
    · rw [if_neg (by decide : ¬(2 : ℤ) = 1)] at hlt
      simp [ScoreComponent.add_score, ScoreComponent.add_score_tail,
        ScoreComponent.add_score_event, hgo, hstw, not_le.mpr hlt, not_le.mpr h1]
  · intro s2 hg q m
    unfold ScoreComponent.add_score
    simp [hg]

/-- Claim C3, witness: from scores (0,0) with winning score 3,
`add_score(1, 3)` ends the game with winner 1. -/
theorem add_score_game_over_transition_witness :
    ((ScoreComponent.init 0 0 3).add_score 1 3).1.game_over = true ∧
    ((ScoreComponent.init 0 0 3).add_score 1 3).1.winner = some 1 ∧
    ((ScoreComponent.init 0 0 3).add_score 1 3).2 = true :=
  (add_score_game_over_transition (ScoreComponent.init 0 0 3) 1 3
    (by decide) (by decide) (by decide) (by decide) (Or.inl rfl)).1 (by decide)

/-- Claim C3, counterexample: the claim quantifies over every score
state with `game_over` false; in the Playing state with scores (3,0)
and winning score 3, `add_score(2, 3)` brings player 2's score to the
winning score but sets `winner := 1` (the game-over check tests player
1 first), not the scoring player. -/
theorem add_score_winner_misattributed :
    (⟨3, 0, 3, true, false, none, none, [], 10⟩ : ScoreComponent).game_over = false ∧
    (⟨3, 0, 3, true, false, none, none, [], 10⟩ : ScoreComponent).winning_score ≤
      (⟨3, 0, 3, true, false, none, none, [], 10⟩ : ScoreComponent).player2_score + 3 ∧
    ((⟨3, 0, 3, true, false, none, none, [], 10⟩ : ScoreComponent).add_score 2 3).1.winner
        = some 1 ∧
    ((⟨3, 0, 3, true, false, none, none, [], 10⟩ : ScoreComponent).add_score 2 3).1.winner
        ≠ some 2 := by
  decide

/-! ## Entity manager invariants -/

theorem inv_init : Inv EntityManager.init := by
  refine ⟨?_, ?_, ?_, ?_⟩ <;> simp [EntityManager.init]

theorem inv_applyOp (m : EntityManager) (op : Op) (h : Inv m) : Inv (applyOp m op) := by
  obtain ⟨hrev, hcomp, hlt, hsub⟩ := h
  cases op with
  | create =>
    refine ⟨?_, ?_, ?_, ?_⟩
    · intro k e
      simp only [applyOp, EntityManager.create_entity, Finset.mem_insert]
      constructor
      · intro he
        exact ⟨Or.inr ((hrev k e).mp he).1, ((hrev k e).mp he).2⟩
      · rintro ⟨rfl | he, hc⟩
        · exact absurd (hlt _ (hcomp _ _ hc)) (lt_irrefl _)
        · exact (hrev k e).mpr ⟨he, hc⟩
    · intro e k hc
      exact Finset.mem_insert_of_mem (hcomp e k hc)
    · intro e he
      rcases Finset.mem_insert.mp he with rfl | he
      · exact Nat.lt_succ_self _
      · exact Nat.lt_succ_of_lt (hlt e he)
    · exact hsub.trans (Finset.subset_insert _ _)
  | destroy e0 =>
    simp only [applyOp, EntityManager.destroy_entity]
    by_cases he : e0 ∈ m.entities
    · rw [if_pos he]
      refine ⟨hrev, hcomp, hlt, ?_⟩
      intro x hx
      rcases Finset.mem_insert.mp hx with rfl | hx
      · exact he
      · exact hsub hx
    · rw [if_neg he]
      exact ⟨hrev, hcomp, hlt, hsub⟩
  | addComp e0 c =>
    simp only [applyOp, EntityManager.add_component]
    by_cases he : e0 ∈ m.entities
    · rw [if_pos he]
      refine ⟨?_, ?_, hlt, hsub⟩
      · intro k e
        simp only [Option.getD_some]
        by_cases hk : k = c.kind
        · subst hk
          rw [if_pos rfl, Finset.mem_insert]
          constructor
          · rintro (rfl | hmem)
            · exact ⟨he, by simp⟩
            · refine ⟨((hrev _ e).mp hmem).1, ?_⟩
              by_cases he2 : e = e0
              · simp [he2]
              · simpa [he2] using ((hrev _ e).mp hmem).2
          · rintro ⟨hent, hc⟩
            by_cases he2 : e = e0
            · exact Or.inl he2
            · refine Or.inr ((hrev _ e).mpr ⟨hent, ?_⟩)
              simpa [he2] using hc
        · rw [if_neg hk]
          rw [hrev k e]
          constructor
          · rintro ⟨hent, hc⟩
            exact ⟨hent, by simpa [hk] using hc⟩
          · rintro ⟨hent, hc⟩
            exact ⟨hent, by simpa [hk] using hc⟩
      · intro e k hc
        simp only [Option.getD_some] at hc
        by_cases h2 : e = e0 ∧ k = c.kind
        · exact h2.1 ▸ he
        · exact hcomp e k (by simpa [if_neg h2] using hc)
    · rw [if_neg he]
      exact ⟨hrev, hcomp, hlt, hsub⟩
  | removeComp e0 k0 =>
    simp only [applyOp, EntityManager.remove_component]
    by_cases he : e0 ∈ m.entities
    · rw [if_pos he]
      by_cases hc0 : (m.comps e0 k0).isSome
      · rw [if_pos hc0]
        refine ⟨?_, ?_, hlt, hsub⟩
        · intro k e
          dsimp only
          by_cases hk : k = k0
          · subst hk
            rw [if_pos rfl, Finset.mem_erase]
            constructor
            · rintro ⟨hne, hmem⟩
              exact ⟨((hrev _ e).mp hmem).1,
                by simpa [hne] using ((hrev _ e).mp hmem).2⟩
            · rintro ⟨hent, hc⟩
              by_cases he2 : e = e0
              · simp [he2] at hc
              · exact ⟨he2, (hrev _ e).mpr ⟨hent, by simpa [he2] using hc⟩⟩
          · rw [if_neg hk, hrev k e]
            constructor
            · rintro ⟨hent, hc⟩
              exact ⟨hent, by simpa [hk] using hc⟩
            · rintro ⟨hent, hc⟩
              exact ⟨hent, by simpa [hk] using hc⟩
        · intro e k hc
          dsimp only at hc
          by_cases h2 : e = e0 ∧ k = k0
          · simp [if_pos h2] at hc
          · exact hcomp e k (by simpa [if_neg h2] using hc)
      · rw [if_neg hc0]
        exact ⟨hrev, hcomp, hlt, hsub⟩
    · rw [if_neg he]
      exact ⟨hrev, hcomp, hlt, hsub⟩
  | cleanup =>
    refine ⟨?_, ?_, ?_, ?_⟩
    · intro k e
      simp only [applyOp, EntityManager.cleanup_destroyed_entities, Finset.mem_filter,
        Finset.mem_sdiff]
      constructor
      · rintro ⟨hmem, hno⟩
        obtain ⟨hent, hc⟩ := (hrev k e).mp hmem
        have hd : e ∉ m.toDestroy := fun hd => hno ⟨hd, hent, hc⟩
        exact ⟨⟨hent, hd⟩, by simpa [hd] using hc⟩
      · rintro ⟨⟨hent, hd⟩, hc⟩
        rw [if_neg hd] at hc
        exact ⟨(hrev k e).mpr ⟨hent, hc⟩, fun hcon => hd hcon.1⟩
    · intro e k hc
      simp only [applyOp, EntityManager.cleanup_destroyed_entities] at hc ⊢
      by_cases hd : e ∈ m.toDestroy
      · simp [hd] at hc
      · rw [if_neg hd] at hc
        exact Finset.mem_sdiff.mpr ⟨hcomp e k hc, hd⟩
    · intro e he
      simp only [applyOp, EntityManager.cleanup_destroyed_entities, Finset.mem_sdiff] at he
      exact hlt e he.1
    · intro x hx
      simp [applyOp, EntityManager.cleanup_destroyed_entities] at hx
  | clearAll =>
    exact inv_init

theorem inv_foldl (ops : List Op) (m : EntityManager) (h : Inv m) :
    Inv (ops.foldl applyOp m) := by
  induction ops generalizing m with
  | nil => exact h
  | cons op rest ih => exact ih (applyOp m op) (inv_applyOp m op h)

theorem reachable_inv (m : EntityManager) (h : Reachable m) : Inv m := by
  obtain ⟨ops, rfl⟩ := h
  exact inv_foldl ops EntityManager.init inv_init

theorem mem_foldl_inter (f : CompKind → Finset ℕ) (rest : List CompKind)
    (acc : Finset ℕ) (e : ℕ) :
    e ∈ rest.foldl (fun a k => a ∩ f k) acc ↔ e ∈ acc ∧ ∀ k ∈ rest, e ∈ f k := by
  induction rest generalizing acc with
  | nil => simp
  | cons hd tl ih =>
    rw [List.foldl_cons, ih]
    simp only [Finset.mem_inter, List.mem_cons, and_assoc]
    constructor
    · rintro ⟨ha, hh, ht⟩
      exact ⟨ha, fun k hk => by rcases hk with rfl | hk; exacts [hh, ht k hk]⟩
    · rintro ⟨ha, hall⟩
      exact ⟨ha, hall hd (Or.inl rfl), fun k hk => hall k (Or.inr hk)⟩

/-- Claim C1 (amended): on every reachable store state, a query with a
NONEMPTY kinds list returns exactly the active entities holding every
listed kind and not pending destruction — independently of the
insertion order, since the result is characterised by the state alone;
but a query with the EMPTY kinds list returns all of `_entities`,
INCLUDING entities already marked for destruction. -/
theorem query_characterisation (m : EntityManager) (h : Reachable m) :
    (∀ (k : CompKind) (kinds : List CompKind) (e : ℕ),
       e ∈ m.get_entities_with_components (k :: kinds) ↔
         (e ∈ m.entities ∧ ∀ k2 ∈ k :: kinds, (m.comps e k2).isSome) ∧
           e ∉ m.toDestroy) ∧
    m.get_entities_with_components [] = m.entities := by
  obtain ⟨hrev, hcomp, hlt, hsub⟩ := reachable_inv m h
  refine ⟨?_, rfl⟩
  intro k kinds e
  simp only [EntityManager.get_entities_with_components, Finset.mem_filter,
    mem_foldl_inter, List.mem_cons]
  constructor
  · rintro ⟨⟨hk, hall⟩, hd⟩
    refine ⟨⟨((hrev k e).mp hk).1, ?_⟩, hd⟩
    rintro k2 (rfl | hk2)
    · exact ((hrev k2 e).mp hk).2
    · exact ((hrev k2 e).mp (hall k2 hk2)).2
  · rintro ⟨⟨hent, hall⟩, hd⟩
    exact ⟨⟨(hrev k e).mpr ⟨hent, hall k (Or.inl rfl)⟩,
      fun k2 hk2 => (hrev k2 e).mpr ⟨hent, hall k2 (Or.inr hk2)⟩⟩, hd⟩

/-- Claim C1, witness: in the store obtained by creating entities 1
and 2, giving both a Position, giving 1 a Velocity, and destroying 2:
entity 1 answers the {Position, Velocity} query, the
destruction-pending entity 2 is excluded from the {Position} query,
and the empty query returns the raw entity set. -/
theorem query_characterisation_witness :
    1 ∈ (runOps [Op.create, Op.create,
          Op.addComp 1 (Component.position ⟨0, 0⟩),
          Op.addComp 2 (Component.position ⟨5, 5⟩),
          Op.addComp 1 (Component.velocity ⟨0, 0, 0⟩),
          Op.destroy 2]).get_entities_with_components
        [CompKind.position, CompKind.velocity] ∧
    2 ∉ (runOps [Op.create, Op.create,
          Op.addComp 1 (Component.position ⟨0, 0⟩),
          Op.addComp 2 (Component.position ⟨5, 5⟩),
          Op.addComp 1 (Component.velocity ⟨0, 0, 0⟩),
          Op.destroy 2]).get_entities_with_components [CompKind.position] ∧
    (runOps [Op.create, Op.create,
          Op.addComp 1 (Component.position ⟨0, 0⟩),
          Op.addComp 2 (Component.position ⟨5, 5⟩),
          Op.addComp 1 (Component.velocity ⟨0, 0, 0⟩),
          Op.destroy 2]).get_entities_with_components [] =
      (runOps [Op.create, Op.create,
          Op.addComp 1 (Component.position ⟨0, 0⟩),
          Op.addComp 2 (Component.position ⟨5, 5⟩),
          Op.addComp 1 (Component.velocity ⟨0, 0, 0⟩),
          Op.destroy 2]).entities := by
  refine ⟨?_, ?_, (query_characterisation _ ⟨_, rfl⟩).2⟩
  · exact ((query_characterisation _ ⟨_, rfl⟩).1 CompKind.position [CompKind.velocity] 1).mpr
      ⟨⟨by decide, by decide⟩, by decide⟩
  · intro hmem
    exact (((query_characterisation _ ⟨_, rfl⟩).1 CompKind.position [] 2).mp hmem).2
      (by decide)

/-- Claim C1, counterexample: the claim says the empty kinds set
returns all active entities still excluding those pending destruction;
but after create, create, destroy 1, the empty query contains entity
1, which is marked for destruction. -/
theorem query_empty_includes_pending :
    1 ∈ (runOps [Op.create, Op.create, Op.destroy 1]).get_entities_with_components [] ∧
    1 ∈ (runOps [Op.create, Op.create, Op.destroy 1]).toDestroy ∧
    1 ∈ (runOps [Op.create, Op.create, Op.destroy 1]).entities := by
  refine ⟨by decide, by decide, by decide⟩

/-- `cleanup_destroyed_entities` is idempotent: the second run starts
from an empty pending set and changes nothing. -/
theorem cleanup_idem (m : EntityManager) :
    m.cleanup_destroyed_entities.cleanup_destroyed_entities =
      m.cleanup_destroyed_entities := by
  unfold EntityManager.cleanup_destroyed_entities
  simp only [EntityManager.mk.injEq, Finset.sdiff_empty, Finset.not_mem_empty,
    false_and, if_false, and_self, and_true, true_and]
  funext k
  exact Finset.filter_true_of_mem (fun e _ => by simp)

/-- Claim C5: `destroy_entity` only marks the entity — the entity
set, the component tables, the reverse indices and the id counter are
untouched, so query results produced earlier in the frame are
unaffected; after `cleanup_destroyed_entities` the entity is no longer
active, `get_component` answers none for every kind, its component
table rows are gone, and the pending set is empty; a second cleanup
changes nothing. -/
theorem deferred_destruction (m : EntityManager) (e : ℕ) (h : e ∈ m.entities) :
    ((m.destroy_entity e).entities = m.entities ∧
     (m.destroy_entity e).comps = m.comps ∧
     (m.destroy_entity e).rev = m.rev ∧
     (m.destroy_entity e).nextId = m.nextId) ∧
    e ∉ (m.destroy_entity e).cleanup_destroyed_entities.entities ∧
    (∀ k, (m.destroy_entity e).cleanup_destroyed_entities.get_component e k = none) ∧
    (∀ k, (m.destroy_entity e).cleanup_destroyed_entities.comps e k = none) ∧
    (m.destroy_entity e).cleanup_destroyed_entities.toDestroy = ∅ ∧
    (∀ m2 : EntityManager,
       m2.cleanup_destroyed_entities.cleanup_destroyed_entities =
         m2.cleanup_destroyed_entities) := by
  have hd : m.destroy_entity e = { m with toDestroy := insert e m.toDestroy } := by
    unfold EntityManager.destroy_entity
    rw [if_pos h]
  have hmem : e ∉ (m.destroy_entity e).cleanup_destroyed_entities.entities := by
    rw [hd]
    simp [EntityManager.cleanup_destroyed_entities]
  refine ⟨by rw [hd]; exact ⟨rfl, rfl, rfl, rfl⟩, hmem, ?_, ?_, ?_, fun m2 => cleanup_idem m2⟩
  · intro k
    unfold EntityManager.get_component
    rw [if_neg hmem]
  · intro k
    rw [hd]
    simp [EntityManager.cleanup_destroyed_entities]
  · rw [hd]
    rfl

/-- Claim C5, witness: the theorem applied to the store holding
entity 1 with a Position component. -/
theorem deferred_destruction_witness :
    ((runOps [Op.create, Op.addComp 1 (Component.position ⟨0, 0⟩)]).destroy_entity 1).entities
        = (runOps [Op.create, Op.addComp 1 (Component.position ⟨0, 0⟩)]).entities ∧
    1 ∉ ((runOps [Op.create, Op.addComp 1 (Component.position ⟨0, 0⟩)]).destroy_entity
          1).cleanup_destroyed_entities.entities ∧
    ((runOps [Op.create, Op.addComp 1 (Component.position ⟨0, 0⟩)]).destroy_entity
          1).cleanup_destroyed_entities.get_component 1 CompKind.position = none ∧
    ((runOps [Op.create, Op.addComp 1 (Component.position ⟨0, 0⟩)]).destroy_entity
          1).cleanup_destroyed_entities.toDestroy = ∅ := by
  have h := deferred_destruction
    (runOps [Op.create, Op.addComp 1 (Component.position ⟨0, 0⟩)]) 1 (by decide)
  exact ⟨h.1.1, h.2.1, h.2.2.1 CompKind.position, h.2.2.2.2.1⟩

/-- Claim C9 (amended): on every reachable store, `create_entity`
issues an id held by no active and no pending-destruction entity and
bumps the monotone counter; identifiers are therefore never reused
while the holder is active or pending.  They CAN recur after
`clear_all`, which resets the counter — see the counterexample. -/
theorem create_issues_fresh_id (m : EntityManager) (h : Reachable m) :
    (m.create_entity).1 ∉ m.entities ∧
    (m.create_entity).1 ∉ m.toDestroy ∧
    (m.create_entity).2.nextId = m.nextId + 1 ∧
    (m.create_entity).1 = m.nextId := by
  obtain ⟨hrev, hcomp, hlt, hsub⟩ := reachable_inv m h
  have hne : m.nextId ∉ m.entities := fun hmem => absurd (hlt _ hmem) (lt_irrefl _)
  exact ⟨hne, fun hmem => hne (hsub hmem), rfl, rfl⟩

/-- Claim C9, witness: the theorem applied after one create. -/
theorem create_issues_fresh_id_witness :
    ((runOps [Op.create]).create_entity).1 ∉ (runOps [Op.create]).entities ∧
    ((runOps [Op.create]).create_entity).1 ∉ (runOps [Op.create]).toDestroy ∧
    ((runOps [Op.create]).create_entity).2.nextId = (runOps [Op.create]).nextId + 1 ∧
    ((runOps [Op.create]).create_entity).1 = (runOps [Op.create]).nextId :=
  create_issues_fresh_id _ ⟨_, rfl⟩

/-- Claim C9, counterexample: identifiers are NOT "never issued
again": `clear_all` resets the counter to 1, so the first create of a
fresh store and the create after `[create, clear_all]` both issue
id 1. -/
theorem id_reissued_after_clear_all :
    ((runOps []).create_entity).1 = 1 ∧
    ((runOps [Op.create, Op.clearAll]).create_entity).1 = 1 := by
  decide

/-! ## Score system: cooldown -/

/-- With the game running, `add_score(2, 1)` adds one point to
player 2 whatever the game-over check then decides. -/
theorem add_score_player2_increment (s : ScoreComponent) (hgo : s.game_over = false) :
    (s.add_score 2 1).1.player2_score = s.player2_score + 1 := by
  unfold ScoreComponent.add_score ScoreComponent.add_score_tail ScoreComponent.add_score_event
  simp only [hgo, Bool.false_eq_true, if_false,
    if_neg (by decide : ¬(2 : ℤ) = 1), if_pos rfl]
  split_ifs <;> rfl

/-- Claim C7: `_check_scoring_conditions` is a no-op for every call
arriving strictly less than the cooldown after the last score event —
so any run of calls inside that window, with the ball held beyond a
threshold, changes nothing and the score is incremented at most once
per window; and once the cooldown has elapsed, a ball still beyond
the left threshold in a running game scores one more point for
player 2 and restamps the cooldown clock. -/
theorem scoring_cooldown :
    (∀ (sys : ScoreSystemState) (t : ℝ) (bp : Option PositionComponent)
       (sc : Option ScoreComponent),
       t - sys.last_score_time < sys.score_cooldown →
       check_scoring_conditions sys t bp sc = (sys, sc)) ∧
    (∀ (sys : ScoreSystemState) (bp : PositionComponent) (sc : Option ScoreComponent)
       (ts : List ℝ),
       (∀ t ∈ ts, t - sys.last_score_time < sys.score_cooldown) →
       ts.foldl (fun p t => check_scoring_conditions p.1 t (some bp) p.2) (sys, sc)
         = (sys, sc)) ∧
    (∀ (sys : ScoreSystemState) (t : ℝ) (bp : PositionComponent) (s : ScoreComponent),
       sys.score_cooldown ≤ t - sys.last_score_time →
       s.game_over = false →
       bp.x < sys.score_boundary_left →
       check_scoring_conditions sys t (some bp) (some s) =
         ({ sys with last_score_time := t }, some (s.add_score 2 1).1) ∧
       (s.add_score 2 1).1.player2_score = s.player2_score + 1) := by
  have h1 : ∀ (sys : ScoreSystemState) (t : ℝ) (bp : Option PositionComponent)
      (sc : Option ScoreComponent),
      t - sys.last_score_time < sys.score_cooldown →
      check_scoring_conditions sys t bp sc = (sys, sc) := by
    intro sys t bp sc h
    unfold check_scoring_conditions
    rw [if_pos h]
  refine ⟨h1, ?_, ?_⟩
  · intro sys bp sc ts hall
    induction ts generalizing sc with
    | nil => rfl
    | cons t rest ih =>
      rw [List.foldl_cons, h1 sys t (some bp) sc (hall t (List.mem_cons_self t rest))]
      exact ih sc (fun t2 ht2 => hall t2 (List.mem_cons_of_mem t ht2))
  · intro sys t bp s hcool hgo hx
    constructor
    · unfold check_scoring_conditions
      rw [if_neg (not_lt.mpr hcool)]
      simp only [hgo, Bool.false_eq_true, if_false, if_pos hx]
    · exact add_score_player2_increment s hgo

/-- Claim C7, witness: with the freshly constructed system (last
score at time 0, cooldown 1 second), a call at time 0.5 is a no-op,
while a call at time 2 with the ball at x = -100 (beyond the left
threshold -50) scores for player 2 and restamps the clock. -/
theorem scoring_cooldown_witness :
    check_scoring_conditions (ScoreSystemState.init GameConfig.default) (1 / 2) none none
      = (ScoreSystemState.init GameConfig.default, none) ∧
    check_scoring_conditions (ScoreSystemState.init GameConfig.default) 2
        (some ⟨-100, 300⟩) (some (ScoreComponent.init 0 0 10))
      = ({ ScoreSystemState.init GameConfig.default with last_score_time := 2 },
         some ((ScoreComponent.init 0 0 10).add_score 2 1).1) ∧
    ((ScoreComponent.init 0 0 10).add_score 2 1).1.player2_score
      = (ScoreComponent.init 0 0 10).player2_score + 1 :=
  ⟨scoring_cooldown.1 _ _ _ _ (by show (1 / 2 : ℝ) - 0 < 1; norm_num),
   (scoring_cooldown.2.2 _ _ _ _ (by show (1 : ℝ) ≤ 2 - 0; norm_num) rfl
     (by show (-100 : ℝ) < -50; norm_num)).1,
   (scoring_cooldown.2.2 (ScoreSystemState.init GameConfig.default) 2 ⟨-100, 300⟩ _
     (by show (1 : ℝ) ≤ 2 - 0; norm_num) rfl
     (by show (-100 : ℝ) < -50; norm_num)).2⟩

/-! ## Collision system: ball boundary behaviour -/

/-- Claim C2: for a Ball-kind entity the boundary phase leaves
position and velocity completely unchanged whenever neither the top
nor the bottom edge is crossed — in particular when the ball crosses
the left edge (x < 0) or the right edge (x > screen width), it is
never repositioned and its velocity is never reflected; crossing the
top (resp. bottom) edge repositions the ball to just inside that edge
and replaces the velocity by the vertical reflection scaled by
`bounce_factor` (and further by the common clamp factor c ∈ (0,1],
which is 1 unless `max_speed` caps the result). -/
theorem ball_boundary (cfg : GameConfig) (pos : PositionComponent)
    (col : CollisionComponent) (v : VelocityComponent)
    (hb : col.collision_type = CollisionType.ball) :
    ((pos.x < 0 ∨ cfg.SCREEN_WIDTH < pos.x) →
      0 < pos.y - col.height / 2 → pos.y + col.height / 2 < cfg.SCREEN_HEIGHT →
      ∀ vel, handle_boundary_entity cfg pos col vel = (pos, vel)) ∧
    (pos.y - col.height / 2 ≤ 0 →
      ∃ c : ℝ, 0 < c ∧ c ≤ 1 ∧
        handle_boundary_entity cfg pos col (some v) =
          ({ pos with y := col.height / 2 },
           some ⟨v.dx * col.bounce_factor * c, -v.dy * col.bounce_factor * c,
                 v.max_speed⟩)) ∧
    (0 < pos.y - col.height / 2 → cfg.SCREEN_HEIGHT ≤ pos.y + col.height / 2 →
      ∃ c : ℝ, 0 < c ∧ c ≤ 1 ∧
        handle_boundary_entity cfg pos col (some v) =
          ({ pos with y := cfg.SCREEN_HEIGHT - col.height / 2 },
           some ⟨v.dx * col.bounce_factor * c, -v.dy * col.bounce_factor * c,
                 v.max_speed⟩)) := by
  have hnp : ¬col.collision_type = CollisionType.paddle := by
    rw [hb]; decide
  refine ⟨?_, ?_, ?_⟩
  · intro _hx htop hbot vel
    simp only [handle_boundary_entity, hb, if_true]
    rw [if_neg (not_le.mpr htop), if_neg (not_le.mpr hbot),
        if_neg (by decide : ¬CollisionType.ball = CollisionType.paddle)]
  · intro htop
    obtain ⟨c, hc0, hc1, hceq⟩ := VelocityComponent.clamp_factor
      ⟨v.dx * col.bounce_factor, -v.dy * col.bounce_factor, v.max_speed⟩
    refine ⟨c, hc0, hc1, ?_⟩
    simp only [handle_boundary_entity, hb, if_true]
    rw [if_pos htop, if_neg (by decide : ¬CollisionType.ball = CollisionType.paddle)]
    simp only [Option.map_some', VelocityComponent.scale_velocity,
      VelocityComponent.reflect_y]
    rw [hceq]
  · intro htop hbot
    obtain ⟨c, hc0, hc1, hceq⟩ := VelocityComponent.clamp_factor
      ⟨v.dx * col.bounce_factor, -v.dy * col.bounce_factor, v.max_speed⟩
    refine ⟨c, hc0, hc1, ?_⟩
    simp only [handle_boundary_entity, hb, if_true]
    rw [if_neg (not_le.mpr htop), if_pos hbot,
        if_neg (by decide : ¬CollisionType.ball = CollisionType.paddle)]
    simp only [Option.map_some', VelocityComponent.scale_velocity,
      VelocityComponent.reflect_y]
    rw [hceq]

/-- Claim C2, witness: a ball of size 10 at (-20, 300), well past the
left edge of the default 800x600 screen and away from top and bottom,
passes the boundary phase with position and velocity untouched. -/
theorem ball_boundary_witness :
    handle_boundary_entity GameConfig.default ⟨-20, 300⟩
        ⟨10, 10, CollisionType.ball, true, false, 1,
          [CollisionType.paddle, CollisionType.ball, CollisionType.wall,
           CollisionType.goal]⟩
        (some ⟨-200, 50, 0⟩)
      = (⟨-20, 300⟩, some ⟨-200, 50, 0⟩) :=
  (ball_boundary GameConfig.default ⟨-20, 300⟩
      ⟨10, 10, CollisionType.ball, true, false, 1,
        [CollisionType.paddle, CollisionType.ball, CollisionType.wall,
         CollisionType.goal]⟩
      ⟨-200, 50, 0⟩ rfl).1
    (Or.inl (by show (-20 : ℝ) < 0; norm_num))
    (by show (0 : ℝ) < 300 - 10 / 2; norm_num)
    (by show (300 : ℝ) + 10 / 2 < 600; norm_num)
    (some ⟨-200, 50, 0⟩)

/-! ## Collision system: pairwise Ball×Paddle resolution -/

theorem pyInt_le_add_one (x : ℝ) : (pyInt x : ℝ) ≤ x + 1 := by
  unfold pyInt
  by_cases h : 0 ≤ x
  · rw [if_pos h]
    have := Int.floor_le x
    linarith
  · rw [if_neg h]
    have := Int.ceil_lt_add_one x
    linarith

theorem pyInt_le_self (x : ℝ) (h : 0 ≤ x) : (pyInt x : ℝ) ≤ x := by
  unfold pyInt
  rw [if_pos h]
  exact Int.floor_le x

theorem le_pyInt (n : ℤ) (x : ℝ) (h : (n : ℝ) ≤ x) : n ≤ pyInt x := by
  unfold pyInt
  by_cases h0 : 0 ≤ x
  · rw [if_pos h0]
    exact Int.le_floor.mpr h
  · rw [if_neg h0]
    exact le_trans (Int.le_floor.mpr h) (Int.floor_le_ceil x)

theorem pyInt_intCast (n : ℤ) : pyInt ((n : ℤ) : ℝ) = n := by
  unfold pyInt
  by_cases h : (0 : ℝ) ≤ (n : ℝ)
  · rw [if_pos h, Int.floor_intCast]
  · rw [if_neg h, Int.ceil_intCast]

/-- Separating by width + 1 to the left keeps the integer rectangles
apart. -/
theorem pyInt_sep_left (u w : ℝ) (hw : 0 ≤ w) :
    pyInt (u - w - 1) + pyInt w ≤ pyInt u := by
  apply le_pyInt
  push_cast
  have h1 := pyInt_le_add_one (u - w - 1)
  have h2 := pyInt_le_self w hw
  linarith

/-- Separating by width + 1 to the right keeps the integer rectangles
apart. -/
theorem pyInt_sep_right (u w : ℝ) (hw : 0 ≤ w) :
    pyInt u + pyInt w ≤ pyInt (u + w + 1) := by
  apply le_pyInt
  push_cast
  have h1 := pyInt_le_add_one u
  have h2 := pyInt_le_self w hw
  linarith

theorem colliderect_symm (a b : PyRect) (h : a.colliderect b) : b.colliderect a :=
  ⟨h.2.1, h.1, h.2.2.2, h.2.2.1⟩

/-- The Ball×Paddle velocity update: both components end up
multiplied by one positive factor applied to the reflected/angled
velocity, and the speed never exceeds `MAX_BALL_SPEED`. -/
theorem ball_paddle_vel_spec (cfg : GameConfig) (ball_col : CollisionComponent)
    (off : ℝ) (bv : VelocityComponent)
    (hs : 0 < ball_col.bounce_factor * cfg.BALL_SPEED_INCREASE)
    (hmax : 0 < cfg.MAX_BALL_SPEED) :
    (∃ c : ℝ, 0 < c ∧
       ball_paddle_vel cfg ball_col off bv =
         ⟨-bv.dx * c, (bv.dy + off * 100) * c, bv.max_speed⟩) ∧
    (ball_paddle_vel cfg ball_col off bv).get_speed ≤ cfg.MAX_BALL_SPEED := by
  obtain ⟨c2, hc20, hc2le, hceq⟩ := VelocityComponent.clamp_factor
    ⟨-bv.dx * (ball_col.bounce_factor * cfg.BALL_SPEED_INCREASE),
     (bv.dy + off * 100) * (ball_col.bounce_factor * cfg.BALL_SPEED_INCREASE),
     bv.max_speed⟩
  have hunf : ball_paddle_vel cfg ball_col off bv =
      (if cfg.MAX_BALL_SPEED <
            (⟨-bv.dx * (ball_col.bounce_factor * cfg.BALL_SPEED_INCREASE) * c2,
              (bv.dy + off * 100) * (ball_col.bounce_factor * cfg.BALL_SPEED_INCREASE) * c2,
              bv.max_speed⟩ : VelocityComponent).get_speed then
         (⟨-bv.dx * (ball_col.bounce_factor * cfg.BALL_SPEED_INCREASE) * c2,
           (bv.dy + off * 100) * (ball_col.bounce_factor * cfg.BALL_SPEED_INCREASE) * c2,
           bv.max_speed⟩ : VelocityComponent).normalize cfg.MAX_BALL_SPEED
       else
         ⟨-bv.dx * (ball_col.bounce_factor * cfg.BALL_SPEED_INCREASE) * c2,
          (bv.dy + off * 100) * (ball_col.bounce_factor * cfg.BALL_SPEED_INCREASE) * c2,
          bv.max_speed⟩) := by
    unfold ball_paddle_vel
    simp only [VelocityComponent.scale_velocity, VelocityComponent.reflect_x]
    rw [hceq]
  set s := ball_col.bounce_factor * cfg.BALL_SPEED_INCREASE with hsdef
  set Y : VelocityComponent :=
    ⟨-bv.dx * s * c2, (bv.dy + off * 100) * s * c2, bv.max_speed⟩ with hY
  by_cases hif : cfg.MAX_BALL_SPEED < Y.get_speed
  · have hspd : 0 < Y.get_speed := lt_trans hmax hif
    have hnorm : Y.normalize cfg.MAX_BALL_SPEED =
        ⟨Y.dx * (cfg.MAX_BALL_SPEED / Y.get_speed),
         Y.dy * (cfg.MAX_BALL_SPEED / Y.get_speed), Y.max_speed⟩ := by
      unfold VelocityComponent.normalize
      rw [if_pos hspd]
    constructor
    · refine ⟨s * c2 * (cfg.MAX_BALL_SPEED / Y.get_speed),
        mul_pos (mul_pos hs hc20) (div_pos hmax hspd), ?_⟩
      rw [hunf, if_pos hif, hnorm]
      simp only [VelocityComponent.mk.injEq, hY]
      refine ⟨by ring, by ring, trivial⟩
    · rw [hunf, if_pos hif,
        VelocityComponent.normalize_get_speed Y cfg.MAX_BALL_SPEED (le_of_lt hmax) hspd]
  · constructor
    · exact ⟨s * c2, mul_pos hs hc20,
        by rw [hunf, if_neg hif]; simp only [VelocityComponent.mk.injEq, hY];
           exact ⟨by ring, by ring, trivial⟩⟩
    · rw [hunf, if_neg hif]
      exact not_lt.mp hif

/-- Computation of `_check_collision_pair` on a Ball/Paddle pair with
mutually accepting masks and overlapping rectangles, in both argument
orders: in each order the paddle is untouched and the ball gets the
separation position and the `ball_paddle_vel` velocity. -/
theorem check_pair_ball_paddle (cfg : GameConfig)
    (pos_a : PositionComponent) (col_a : CollisionComponent) (bv : VelocityComponent)
    (pos_b : PositionComponent) (col_b : CollisionComponent)
    (vel_b : Option VelocityComponent)
    (ha : col_a.collision_type = CollisionType.ball)
    (hb2 : col_b.collision_type = CollisionType.paddle)
    (hm1 : col_a.can_collide_with col_b.collision_type)
    (hm2 : col_b.can_collide_with col_a.collision_type)
    (hov : (col_a.get_collision_rect pos_a.x pos_a.y).colliderect
             (col_b.get_collision_rect pos_b.x pos_b.y)) :
    check_collision_pair cfg pos_a col_a (some bv) pos_b col_b vel_b =
      ((if pos_a.x < pos_b.x then
          ({ pos_a with x := pos_b.x - (col_b.width + col_a.width) / 2 - 1 })
        else
          ({ pos_a with x := pos_b.x + (col_b.width + col_a.width) / 2 + 1 }),
        some (ball_paddle_vel cfg col_a
          (max (-1 : ℝ) (min 1 ((pos_a.y - pos_b.y) / (col_b.height / 2)))) bv)),
       (pos_b, vel_b)) ∧
    check_collision_pair cfg pos_b col_b vel_b pos_a col_a (some bv) =
      ((pos_b, vel_b),
       (if pos_a.x < pos_b.x then
          ({ pos_a with x := pos_b.x - (col_b.width + col_a.width) / 2 - 1 })
        else
          ({ pos_a with x := pos_b.x + (col_b.width + col_a.width) / 2 + 1 }),
        some (ball_paddle_vel cfg col_a
          (max (-1 : ℝ) (min 1 ((pos_a.y - pos_b.y) / (col_b.height / 2)))) bv))) := by
  have hpb : ¬col_b.collision_type = CollisionType.ball := by
    rw [hb2]; decide
  constructor
  · unfold check_collision_pair
    rw [if_pos ⟨hm1, hm2⟩, if_pos hov]
    unfold resolve_collision
    rw [if_pos (Or.inl ⟨ha, hb2⟩)]
    simp only [if_pos ha]
  · unfold check_collision_pair
    rw [if_pos ⟨hm2, hm1⟩, if_pos (colliderect_symm _ _ hov)]
    unfold resolve_collision
    rw [if_pos (Or.inr ⟨hb2, ha⟩)]
    simp only [if_neg hpb]

/-- Claim C6: for an overlapping Ball/Paddle pair with mutually
accepting masks (in either argument order), the pair resolution
leaves the paddle untouched; the ball's velocity becomes the
horizontal reflection with `(clamped hit offset) * 100` added
vertically, the whole scaled by one positive factor (which is exactly
`bounce_factor * BALL_SPEED_INCREASE` when no speed cap binds), its
speed is at most `MAX_BALL_SPEED`; and the ball is repositioned
horizontally by half the combined widths plus one unit on the side it
approached from, so the two rectangles no longer overlap. -/
theorem ball_paddle_resolution (cfg : GameConfig)
    (pos_a : PositionComponent) (col_a : CollisionComponent) (bv : VelocityComponent)
    (pos_b : PositionComponent) (col_b : CollisionComponent)
    (vel_b : Option VelocityComponent)
    (ha : col_a.collision_type = CollisionType.ball)
    (hb2 : col_b.collision_type = CollisionType.paddle)
    (hm1 : col_a.can_collide_with col_b.collision_type)
    (hm2 : col_b.can_collide_with col_a.collision_type)
    (hov : (col_a.get_collision_rect pos_a.x pos_a.y).colliderect
             (col_b.get_collision_rect pos_b.x pos_b.y))
    (hs : 0 < col_a.bounce_factor * cfg.BALL_SPEED_INCREASE)
    (hmax : 0 < cfg.MAX_BALL_SPEED)
    (hwa : 0 ≤ col_a.width) (hwb : 0 ≤ col_b.width) :
    (check_collision_pair cfg pos_a col_a (some bv) pos_b col_b vel_b).2
        = (pos_b, vel_b) ∧
    (check_collision_pair cfg pos_a col_a (some bv) pos_b col_b vel_b).1.2
        = some (ball_paddle_vel cfg col_a
            (max (-1 : ℝ) (min 1 ((pos_a.y - pos_b.y) / (col_b.height / 2)))) bv) ∧
    (check_collision_pair cfg pos_a col_a (some bv) pos_b col_b vel_b).1.1.y
        = pos_a.y ∧
    (pos_a.x < pos_b.x →
       (check_collision_pair cfg pos_a col_a (some bv) pos_b col_b vel_b).1.1.x
         = pos_b.x - (col_b.width + col_a.width) / 2 - 1) ∧
    (¬pos_a.x < pos_b.x →
       (check_collision_pair cfg pos_a col_a (some bv) pos_b col_b vel_b).1.1.x
         = pos_b.x + (col_b.width + col_a.width) / 2 + 1) ∧
    (∃ c : ℝ, 0 < c ∧
       ball_paddle_vel cfg col_a
           (max (-1 : ℝ) (min 1 ((pos_a.y - pos_b.y) / (col_b.height / 2)))) bv
         = ⟨-bv.dx * c,
            (bv.dy + max (-1 : ℝ) (min 1 ((pos_a.y - pos_b.y) / (col_b.height / 2)))
              * 100) * c,
            bv.max_speed⟩) ∧
    (ball_paddle_vel cfg col_a
        (max (-1 : ℝ) (min 1 ((pos_a.y - pos_b.y) / (col_b.height / 2)))) bv).get_speed
      ≤ cfg.MAX_BALL_SPEED ∧
    ¬(col_a.get_collision_rect
        (check_collision_pair cfg pos_a col_a (some bv) pos_b col_b vel_b).1.1.x
        (check_collision_pair cfg pos_a col_a (some bv) pos_b col_b vel_b).1.1.y).colliderect
      (col_b.get_collision_rect pos_b.x pos_b.y) ∧
    check_collision_pair cfg pos_b col_b vel_b pos_a col_a (some bv)
      = ((pos_b, vel_b),
         (check_collision_pair cfg pos_a col_a (some bv) pos_b col_b vel_b).1) := by
  obtain ⟨hmain, hswap⟩ :=
    check_pair_ball_paddle cfg pos_a col_a bv pos_b col_b vel_b ha hb2 hm1 hm2 hov
  obtain ⟨hexist, hspeed⟩ := ball_paddle_vel_spec cfg col_a
    (max (-1 : ℝ) (min 1 ((pos_a.y - pos_b.y) / (col_b.height / 2)))) bv hs hmax
  refine ⟨by rw [hmain], by rw [hmain], ?_, ?_, ?_, hexist, hspeed, ?_, by rw [hswap, hmain]⟩
  · rw [hmain]
    by_cases hx : pos_a.x < pos_b.x
    · rw [if_pos hx]
    · rw [if_neg hx]
  · intro hx
    rw [hmain, if_pos hx]
  · intro hx
    rw [hmain, if_neg hx]
  · rw [hmain]
    by_cases hx : pos_a.x < pos_b.x
    · rw [if_pos hx]
      have harg : pos_b.x - (col_b.width + col_a.width) / 2 - 1 - col_a.width / 2
          = pos_b.x - col_b.width / 2 - col_a.width - 1 := by ring
      have hsep := pyInt_sep_left (pos_b.x - col_b.width / 2) col_a.width hwa
      rw [← harg] at hsep
      exact fun hcol => absurd hcol.2.1 (not_lt.mpr hsep)
    · rw [if_neg hx]
      have harg : pos_b.x + (col_b.width + col_a.width) / 2 + 1 - col_a.width / 2
          = pos_b.x - col_b.width / 2 + col_b.width + 1 := by ring
      have hsep := pyInt_sep_right (pos_b.x - col_b.width / 2) col_b.width hwb
      rw [← harg] at hsep
      exact fun hcol => absurd hcol.1 (not_lt.mpr hsep)

/-- Claim C6, witness: the spec scenario — ball at (100,300) with
half-size 5 and velocity (-200, 0), paddle at (105,300) with
half-size (5,40), default config, mutually accepting masks.  The
paddle is untouched, the ball is pushed to the left separation
position, the resulting speed respects `MAX_BALL_SPEED`, and the two
rectangles no longer overlap. -/
theorem ball_paddle_resolution_witness :
    (check_collision_pair GameConfig.default ⟨100, 300⟩
        ⟨10, 10, CollisionType.ball, true, false, 1,
          [CollisionType.paddle, CollisionType.ball, CollisionType.wall,
           CollisionType.goal]⟩
        (some ⟨-200, 0, 0⟩) ⟨105, 300⟩
        ⟨10, 80, CollisionType.paddle, true, false, 1.1,
          [CollisionType.paddle, CollisionType.ball, CollisionType.wall,
           CollisionType.goal]⟩
        none).2 = (⟨105, 300⟩, none) ∧
    (check_collision_pair GameConfig.default ⟨100, 300⟩
        ⟨10, 10, CollisionType.ball, true, false, 1,
          [CollisionType.paddle, CollisionType.ball, CollisionType.wall,
           CollisionType.goal]⟩
        (some ⟨-200, 0, 0⟩) ⟨105, 300⟩
        ⟨10, 80, CollisionType.paddle, true, false, 1.1,
          [CollisionType.paddle, CollisionType.ball, CollisionType.wall,
           CollisionType.goal]⟩
        none).1.1.x = (105 : ℝ) - (10 + 10) / 2 - 1 ∧
    (ball_paddle_vel GameConfig.default
        ⟨10, 10, CollisionType.ball, true, false, 1,
          [CollisionType.paddle, CollisionType.ball, CollisionType.wall,
           CollisionType.goal]⟩
        (max (-1 : ℝ) (min 1 (((300 : ℝ) - 300) / (80 / 2))))
        ⟨-200, 0, 0⟩).get_speed ≤ GameConfig.default.MAX_BALL_SPEED ∧
    ¬(CollisionComponent.get_collision_rect
        ⟨10, 10, CollisionType.ball, true, false, 1,
          [CollisionType.paddle, CollisionType.ball, CollisionType.wall,
           CollisionType.goal]⟩
        (check_collision_pair GameConfig.default ⟨100, 300⟩
          ⟨10, 10, CollisionType.ball, true, false, 1,
            [CollisionType.paddle, CollisionType.ball, CollisionType.wall,
             CollisionType.goal]⟩
          (some ⟨-200, 0, 0⟩) ⟨105, 300⟩
          ⟨10, 80, CollisionType.paddle, true, false, 1.1,
            [CollisionType.paddle, CollisionType.ball, CollisionType.wall,
             CollisionType.goal]⟩
          none).1.1.x
        (check_collision_pair GameConfig.default ⟨100, 300⟩
          ⟨10, 10, CollisionType.ball, true, false, 1,
            [CollisionType.paddle, CollisionType.ball, CollisionType.wall,
             CollisionType.goal]⟩
          (some ⟨-200, 0, 0⟩) ⟨105, 300⟩
          ⟨10, 80, CollisionType.paddle, true, false, 1.1,
            [CollisionType.paddle, CollisionType.ball, CollisionType.wall,
             CollisionType.goal]⟩
          none).1.1.y).colliderect
      (CollisionComponent.get_collision_rect
        ⟨10, 80, CollisionType.paddle, true, false, 1.1,
          [CollisionType.paddle, CollisionType.ball, CollisionType.wall,
           CollisionType.goal]⟩
        (105 : ℝ) 300) := by
  have e95 : pyInt ((100 : ℝ) - 10 / 2) = 95 := by
    rw [show ((100 : ℝ) - 10 / 2) = ((95 : ℤ) : ℝ) by norm_num, pyInt_intCast]
  have e295 : pyInt ((300 : ℝ) - 10 / 2) = 295 := by
    rw [show ((300 : ℝ) - 10 / 2) = ((295 : ℤ) : ℝ) by norm_num, pyInt_intCast]
  have e10 : pyInt (10 : ℝ) = 10 := by
    rw [show ((10 : ℝ)) = ((10 : ℤ) : ℝ) by norm_num, pyInt_intCast]
  have e100 : pyInt ((105 : ℝ) - 10 / 2) = 100 := by
    rw [show ((105 : ℝ) - 10 / 2) = ((100 : ℤ) : ℝ) by norm_num, pyInt_intCast]
  have e260 : pyInt ((300 : ℝ) - 80 / 2) = 260 := by
    rw [show ((300 : ℝ) - 80 / 2) = ((260 : ℤ) : ℝ) by norm_num, pyInt_intCast]
  have e80 : pyInt (80 : ℝ) = 80 := by
    rw [show ((80 : ℝ)) = ((80 : ℤ) : ℝ) by norm_num, pyInt_intCast]
  have hov : (CollisionComponent.get_collision_rect
      ⟨10, 10, CollisionType.ball, true, false, 1,
        [CollisionType.paddle, CollisionType.ball, CollisionType.wall,
         CollisionType.goal]⟩ (100 : ℝ) 300).colliderect
      (CollisionComponent.get_collision_rect
        ⟨10, 80, CollisionType.paddle, true, false, 1.1,
          [CollisionType.paddle, CollisionType.ball, CollisionType.wall,
           CollisionType.goal]⟩ (105 : ℝ) 300) := by
    refine ⟨?_, ?_, ?_, ?_⟩
    · show pyInt ((100 : ℝ) - 10 / 2) < pyInt ((105 : ℝ) - 10 / 2) + pyInt (10 : ℝ)
      rw [e95, e100, e10]
      decide
    · show pyInt ((105 : ℝ) - 10 / 2) < pyInt ((100 : ℝ) - 10 / 2) + pyInt (10 : ℝ)
      rw [e100, e95, e10]
      decide
    · show pyInt ((300 : ℝ) - 10 / 2) < pyInt ((300 : ℝ) - 80 / 2) + pyInt (80 : ℝ)
      rw [e295, e260, e80]
      decide
    · show pyInt ((300 : ℝ) - 80 / 2) < pyInt ((300 : ℝ) - 10 / 2) + pyInt (10 : ℝ)
      rw [e260, e295, e10]
      decide
  have h := ball_paddle_resolution GameConfig.default ⟨100, 300⟩
    ⟨10, 10, CollisionType.ball, true, false, 1,
      [CollisionType.paddle, CollisionType.ball, CollisionType.wall,
       CollisionType.goal]⟩
    ⟨-200, 0, 0⟩ ⟨105, 300⟩
    ⟨10, 80, CollisionType.paddle, true, false, 1.1,
      [CollisionType.paddle, CollisionType.ball, CollisionType.wall,
       CollisionType.goal]⟩
    none rfl rfl (by decide) (by decide) hov
    (by show (0 : ℝ) < 1 * 1.05; norm_num)
    (by show (0 : ℝ) < 600; norm_num)
    (by show (0 : ℝ) ≤ 10; norm_num)
    (by show (0 : ℝ) ≤ 10; norm_num)
  exact ⟨h.1, h.2.2.2.1 (by show (100 : ℝ) < 105; norm_num),
    h.2.2.2.2.2.2.1, h.2.2.2.2.2.2.2.1⟩

end PingPong
